import Mathlib

/-!
Verification of the `LayoutDirective` from `src/lib/flexbox/api/layout.ts`
(a responsive flex-layout directive).

The TypeScript file is shallowly embedded below:

* JavaScript string values that may be `undefined` are modelled as
  `Option String` (`none` = absent / `undefined`).
* `String.prototype.toLowerCase` is modelled per character with
  `Char.toLower` (the recognized tokens are all ASCII, so the basic-latin
  lowering is the relevant behaviour).
* `String.prototype.split(" ")` splits on every occurrence of the space
  character and keeps empty fields, exactly as in JavaScript
  (`"".split(" ") = [""]`, `"a  b".split(" ") = ["a","","b"]`); this is
  `jsSplit` below.
* A JavaScript object literal of CSS properties is modelled as an
  association list `List (String × Option String)`; a value `none` models
  the explicit `null` ("remove this property").
* The rxjs `BehaviorSubject` collaborator and the `BaseFxDirective`
  input-cache / media-query collaborators are external to the file; they
  are modelled from the spec where a claim needs them (see the doc
  comments on `BehaviorSubject` and `LayoutState`).
-/

set_option autoImplicit false

/-- JavaScript truthiness for an optional string: `undefined`/`null` and
the empty string are falsy, every other string is truthy. -/
def truthy : Option String → Bool
  | none => false
  | some s => !(s == "")

/-- JavaScript `a || b` on optional strings: `b` when `a` is falsy. -/
def jsOr (a b : Option String) : Option String :=
  if truthy a then a else b

/-- Model of `String.prototype.toLowerCase`, per character on the
underlying character list (basic-latin lowering). -/
def jsToLower (s : String) : String := ⟨s.data.map Char.toLower⟩

/-- Split a character list on every occurrence of `sep`, keeping empty
fields, as JavaScript `split` does. -/
def splitCharsOn (sep : Char) : List Char → List (List Char)
  | [] => [[]]
  | c :: cs =>
    match splitCharsOn sep cs with
    | [] => if c = sep then [[], []] else [[c]]
    | t :: ts => if c = sep then [] :: t :: ts else (c :: t) :: ts

/-- Model of `value.split(sep)` for a single-character separator. -/
def jsSplit (s : String) (sep : Char) : List String :=
  (splitCharsOn sep s.data).map String.mk

/-- `export const LAYOUT_VALUES = ['row', 'column', 'row-reverse', 'column-reverse'];` -/
def LAYOUT_VALUES : List String := ["row", "column", "row-reverse", "column-reverse"]

/-- `_validateWrapValue(value)`: when the token is truthy, switch on its
lowercase form (`reverse | wrap-reverse | reverse-wrap` give
`wrap-reverse`; `no | none | nowrap` give `nowrap`; everything else gives
`wrap`); a falsy token (`undefined` or `""`) is returned unchanged. -/
def _validateWrapValue (value : Option String) : Option String :=
  if truthy value then
    let v := jsToLower (value.getD "")
    if v = "reverse" ∨ v = "wrap-reverse" ∨ v = "reverse-wrap" then
      some "wrap-reverse"
    else if v = "no" ∨ v = "none" ∨ v = "nowrap" then
      some "nowrap"
    else
      some "wrap"
  else value

/-- First line of `_validateValue`:
`value = value ? value.toLowerCase() : '';`. -/
def normalizeRaw (value : Option String) : String :=
  if truthy value then jsToLower (value.getD "") else ""

/-- `_validateValue(value)`: lowercase the (possibly absent) raw string,
split it on the space character, destructure the first two fields as
`direction` and `wrap`, replace an unrecognized direction by
`LAYOUT_VALUES[0]` (i.e. `"row"`; `LAYOUT_VALUES.find` returns a truthy
string exactly on membership, since every member is non-empty), and pass
the wrap token through `_validateWrapValue`. -/
def _validateValue (value : Option String) : String × Option String :=
  let parts := jsSplit (normalizeRaw value) ' '
  let direction := parts.headD ""
  ((if direction ∈ LAYOUT_VALUES then direction else LAYOUT_VALUES.headD ""),
   _validateWrapValue parts[1]?)

/-- `_buildCSS(direction, wrap = null)`: the returned object literal. The
`flex-wrap` key is always present; its value is `wrap` when `wrap` is
truthy and `null` (here `none`) otherwise. -/
def _buildCSS (direction : String) (wrap : Option String) :
    List (String × Option String) :=
  [("display", some "flex"),
   ("box-sizing", some "border-box"),
   ("flex-direction", some direction),
   ("flex-wrap", if truthy wrap then wrap else none)]

/-- Modelled from the spec: the rxjs `BehaviorSubject` collaborator (not
part of this repository) is "a single-slot, replay-to-new-subscribers
notification channel": it holds the latest value, `next` overwrites the
slot and delivers one emission, and a new subscriber immediately reads
the slot. `emitted` records the values pushed by `next`, in order. -/
structure BehaviorSubject where
  current : String
  emitted : List String
deriving Repr, DecidableEq

/-- `new BehaviorSubject<string>(v)`. -/
def BehaviorSubject.init (v : String) : BehaviorSubject :=
  { current := v, emitted := [] }

/-- `subject.next(v)`: overwrite the slot and record one emission. -/
def BehaviorSubject.next (b : BehaviorSubject) (v : String) : BehaviorSubject :=
  { current := v, emitted := b.emitted ++ [v] }

/-- What a subscriber arriving now immediately receives: the slot value. -/
def BehaviorSubject.subscribeNow (b : BehaviorSubject) : String := b.current

/-- The directive state visible to the claims. `layoutInput` is the cached
base `fxLayout` input as reported by the base class `_queryInput("layout")`
(`none` = never set / undefined); `mqActivation` models the media-query
activation collaborator: `none` when `this._mqActivation` is absent, and
`some a` when it is present with `activatedInput = a` (itself possibly
undefined). `announcer` is the `BehaviorSubject` and `appliedStyle` the
last property set handed to `_applyStyleToElement` (`none` before any
update). The input cache and activation objects live in the base class /
media-query subsystem; only their values observable by
`_updateWithDirection` are modelled, following the spec. -/
structure LayoutState where
  layoutInput : Option String
  mqActivation : Option (Option String)
  announcer : BehaviorSubject
  appliedStyle : Option (List (String × Option String))
deriving Repr, DecidableEq

/-- The constructor: inputs are not yet cached, no media-query activation
exists yet, no style has been applied, and
`this._announcer = new BehaviorSubject<string>("row")`. -/
def constructLayout : LayoutState :=
  { layoutInput := none
    mqActivation := none
    announcer := BehaviorSubject.init "row"
    appliedStyle := none }

/-- The value-resolution prefix of `_updateWithDirection`:
`value = value || this._queryInput("layout") || 'row';` followed by
`if (this._mqActivation) value = this._mqActivation.activatedInput;`. -/
def resolveRawValue (value layoutInput : Option String)
    (mqActivation : Option (Option String)) : Option String :=
  let v := jsOr (jsOr value layoutInput) (some "row")
  match mqActivation with
  | some activated => activated
  | none => v

/-- `_updateWithDirection(value?)`: resolve the raw value, validate it,
apply the built CSS to the host element and announce the new direction. -/
def _updateWithDirection (s : LayoutState) (value : Option String) :
    LayoutState :=
  let raw := resolveRawValue value s.layoutInput s.mqActivation
  let dw := _validateValue raw
  { s with
    appliedStyle := some (_buildCSS dw.1 dw.2)
    announcer := s.announcer.next dw.1 }

/-- Modelled from the spec: the normalizer as §4.1 and the C8 claim word
it — "lower-case it, split on whitespace into at most two tokens" — i.e.
with any whitespace character (not only the space character) acting as a
token separator. Identical to `_validateValue` except for the separator
predicate. Used only to compare the spec's wording with the source. -/
def _validateValueSpecSplit (value : Option String) : String × Option String :=
  let parts := ((normalizeRaw value).data.splitOnP (·.isWhitespace)).map
    (fun ss => String.mk ss)
  let direction := parts.headD ""
  ((if direction ∈ LAYOUT_VALUES then direction else LAYOUT_VALUES.headD ""),
   _validateWrapValue parts[1]?)

/-- The raw string rebuilt from a normalizer output: the direction alone
when the wrap slot is unset, otherwise the direction, one space and the
wrap value. -/
def rebuildRaw (d : String) (w : Option String) : String :=
  match w with
  | none => d
  | some x => d ++ " " ++ x

/-! ### Helper lemmas -/

theorem truthy_some_of_ne (x : String) (h : x ≠ "") : truthy (some x) = true := by
  simp [truthy, h]

theorem validateWrapValue_of_ne (x : String) (h : x ≠ "") :
    _validateWrapValue (some x) = some "wrap-reverse" ∨
    _validateWrapValue (some x) = some "nowrap" ∨
    _validateWrapValue (some x) = some "wrap" := by
  by_cases h1 : jsToLower x = "reverse" ∨ jsToLower x = "wrap-reverse" ∨
      jsToLower x = "reverse-wrap"
  · left; simp [_validateWrapValue, truthy, h, h1]
  · by_cases h2 : jsToLower x = "no" ∨ jsToLower x = "none" ∨ jsToLower x = "nowrap"
    · right; left; simp [_validateWrapValue, truthy, h, h1, h2]
    · right; right; simp [_validateWrapValue, truthy, h, h1, h2]

theorem validateValue_fst_mem (value : Option String) :
    (_validateValue value).1 ∈ LAYOUT_VALUES := by
  have hE : (_validateValue value).1 =
      (if (jsSplit (normalizeRaw value) ' ').headD "" ∈ LAYOUT_VALUES
       then (jsSplit (normalizeRaw value) ' ').headD ""
       else LAYOUT_VALUES.headD "") := rfl
  rw [hE]
  split
  · assumption
  · simp [LAYOUT_VALUES]

theorem validateValue_snd_shape (value : Option String) :
    (_validateValue value).2 = none ∨ (_validateValue value).2 = some "" ∨
    (_validateValue value).2 = some "wrap-reverse" ∨
    (_validateValue value).2 = some "nowrap" ∨
    (_validateValue value).2 = some "wrap" := by
  have hE : (_validateValue value).2 =
      _validateWrapValue (jsSplit (normalizeRaw value) ' ')[1]? := rfl
  rw [hE]
  cases hT : (jsSplit (normalizeRaw value) ' ')[1]? with
  | none => left; rfl
  | some x =>
    by_cases hx : x = ""
    · subst hx; right; left; rfl
    · rcases validateWrapValue_of_ne x hx with h | h | h
      · right; right; left; exact h
      · right; right; right; left; exact h
      · right; right; right; right; exact h

theorem char_toLower_toLower (c : Char) : c.toLower.toLower = c.toLower := by
  by_cases h : 65 ≤ c.toNat ∧ c.toNat ≤ 90
  · have hc : c.toLower = Char.ofNat (c.toNat + 32) := by
      show (if c.toNat ≥ 65 ∧ c.toNat ≤ 90 then Char.ofNat (c.toNat + 32) else c) =
        Char.ofNat (c.toNat + 32)
      rw [if_pos ⟨h.1, h.2⟩]
    rw [hc]
    obtain ⟨h1, h2⟩ := h
    generalize hg : c.toNat = n at h1 h2
    interval_cases n <;> decide
  · have hc : c.toLower = c := by
      show (if c.toNat ≥ 65 ∧ c.toNat ≤ 90 then Char.ofNat (c.toNat + 32) else c) = c
      rw [if_neg h]
    rw [hc, hc]

theorem jsToLower_idem (s : String) : jsToLower (jsToLower s) = jsToLower s := by
  show String.mk ((s.data.map Char.toLower).map Char.toLower) =
    String.mk (s.data.map Char.toLower)
  rw [List.map_map]
  exact congrArg String.mk (List.map_congr_left fun c _ => char_toLower_toLower c)

theorem jsToLower_ne_empty (s : String) (h : s ≠ "") : jsToLower s ≠ "" := by
  intro hc
  apply h
  have hdata : s.data.map Char.toLower = [] := congrArg String.data hc
  have : s.data = [] := List.map_eq_nil_iff.mp hdata
  cases s
  simp_all

theorem normalizeRaw_toLower (s : String) :
    normalizeRaw (some (jsToLower s)) = normalizeRaw (some s) := by
  by_cases h : s = ""
  · subst h; rfl
  · have h1 : truthy (some s) = true := truthy_some_of_ne s h
    have h2 : truthy (some (jsToLower s)) = true :=
      truthy_some_of_ne _ (jsToLower_ne_empty s h)
    simp only [normalizeRaw, h1, h2, if_true, Option.getD_some]
    exact jsToLower_idem s

/-! ### Claim theorems -/

/-- C1: for every input string (or absent input), `_validateValue` returns
a direction from the enumerated set; the direction is the first
space-separated field of the lowercased input whenever that field is a
recognized direction token (so recognition is case-insensitive), and
`"row"` for every unrecognized or empty first field; lowercasing the
input first does not change the result. The function is total (no error
path exists). -/
theorem c1_validateValue_direction_total (value : Option String) (s : String) :
    (_validateValue value).1 ∈ LAYOUT_VALUES ∧
    (_validateValue value).1 =
      (if (jsSplit (normalizeRaw value) ' ').headD "" ∈ LAYOUT_VALUES
       then (jsSplit (normalizeRaw value) ' ').headD "" else "row") ∧
    _validateValue (some (jsToLower s)) = _validateValue (some s) := by
  refine ⟨validateValue_fst_mem value, rfl, ?_⟩
  unfold _validateValue
  rw [normalizeRaw_toLower]

/-- C2 counterexample: the claim says every non-empty token outside the two
listed sets maps to `"wrap"`, but `"REVERSE"` is outside both literal sets
and non-empty, and `_validateWrapValue` maps it to `"wrap-reverse"` (the
switch runs on the lowercased token), not to `"wrap"`. -/
theorem c2_wrap_mapping_counterexample :
    "REVERSE" ∉ (["reverse", "wrap-reverse", "reverse-wrap"] : List String) ∧
    "REVERSE" ∉ (["no", "none", "nowrap"] : List String) ∧
    "REVERSE" ≠ "" ∧
    _validateWrapValue (some "REVERSE") = some "wrap-reverse" ∧
    _validateWrapValue (some "REVERSE") ≠ some "wrap" := by decide

/-- C2 (amended): the wrap-token mapping is total and applies to the
lowercased token: every non-empty string whose lowercase form is in
`reverse | wrap-reverse | reverse-wrap` maps to `"wrap-reverse"`, every
one whose lowercase form is in `no | none | nowrap` maps to `"nowrap"`,
every other non-empty string maps to `"wrap"`, and a falsy token
(absent or empty) is returned unchanged, leaving wrap unset. -/
theorem c2_wrap_mapping_total (v : String) (h : v ≠ "") :
    _validateWrapValue (some v) =
      some (if jsToLower v = "reverse" ∨ jsToLower v = "wrap-reverse" ∨
              jsToLower v = "reverse-wrap" then "wrap-reverse"
            else if jsToLower v = "no" ∨ jsToLower v = "none" ∨
              jsToLower v = "nowrap" then "nowrap"
            else "wrap") ∧
    _validateWrapValue none = none ∧
    _validateWrapValue (some "") = some "" := by
  refine ⟨?_, rfl, rfl⟩
  simp only [_validateWrapValue, truthy_some_of_ne v h, if_true, Option.getD_some]
  split_ifs <;> rfl

/-- Witness for C2 at the concrete token `"Reverse"`. -/
theorem c2_wrap_mapping_witness :
    _validateWrapValue (some "Reverse") =
      some (if jsToLower "Reverse" = "reverse" ∨ jsToLower "Reverse" = "wrap-reverse" ∨
              jsToLower "Reverse" = "reverse-wrap" then "wrap-reverse"
            else if jsToLower "Reverse" = "no" ∨ jsToLower "Reverse" = "none" ∨
              jsToLower "Reverse" = "nowrap" then "nowrap"
            else "wrap") ∧
    _validateWrapValue none = none ∧
    _validateWrapValue (some "") = some "" :=
  c2_wrap_mapping_total "Reverse" (by decide)

/-- C3: in `_updateWithDirection`, a present media-query activation makes
its `activatedInput` the resolved raw value, overriding both the explicit
`value` argument and the cached base `layout` input (the announced
direction is then computed from the activated input); and with no
activation, no argument and no cached input the resolved raw value
defaults to `"row"`. -/
theorem c3_activation_precedence (s : LayoutState) (value act : Option String)
    (h : s.mqActivation = some act) :
    resolveRawValue value s.layoutInput s.mqActivation = act ∧
    (_updateWithDirection s value).announcer.subscribeNow = (_validateValue act).1 ∧
    resolveRawValue none none none = some "row" := by
  have h1 : resolveRawValue value s.layoutInput s.mqActivation = act := by
    unfold resolveRawValue
    rw [h]
  refine ⟨h1, ?_, rfl⟩
  show (_validateValue (resolveRawValue value s.layoutInput s.mqActivation)).1 =
    (_validateValue act).1
  rw [h1]

/-- Witness for C3: a state whose activation carries `"column"` while the
base input is `"row"` and the argument is `"row-reverse"`. -/
theorem c3_activation_precedence_witness :
    resolveRawValue (some "row-reverse")
      (LayoutState.mk (some "row") (some (some "column"))
        (BehaviorSubject.init "row") none).layoutInput
      (LayoutState.mk (some "row") (some (some "column"))
        (BehaviorSubject.init "row") none).mqActivation = some "column" ∧
    (_updateWithDirection
      (LayoutState.mk (some "row") (some (some "column"))
        (BehaviorSubject.init "row") none)
      (some "row-reverse")).announcer.subscribeNow =
      (_validateValue (some "column")).1 ∧
    resolveRawValue none none none = some "row" :=
  c3_activation_precedence
    (LayoutState.mk (some "row") (some (some "column"))
      (BehaviorSubject.init "row") none)
    (some "row-reverse") (some "column") rfl

/-- C4: `_buildCSS` deterministically returns exactly the four properties
`display: flex`, `box-sizing: border-box`, `flex-direction: direction`
and `flex-wrap: wrap` when wrap is truthy / `null` otherwise; and for the
empty raw input the resulting style is
`display:flex, box-sizing:border-box, flex-direction:row, flex-wrap:null`. -/
theorem c4_buildCSS_exact (direction : String) (wrap : Option String) :
    (_buildCSS direction wrap).map Prod.fst =
      ["display", "box-sizing", "flex-direction", "flex-wrap"] ∧
    (_buildCSS direction wrap).lookup "display" = some (some "flex") ∧
    (_buildCSS direction wrap).lookup "box-sizing" = some (some "border-box") ∧
    (_buildCSS direction wrap).lookup "flex-direction" = some (some direction) ∧
    (_buildCSS direction wrap).lookup "flex-wrap" =
      some (if truthy wrap then wrap else none) ∧
    _buildCSS (_validateValue (some "")).1 (_validateValue (some "")).2 =
      [("display", some "flex"), ("box-sizing", some "border-box"),
       ("flex-direction", some "row"), ("flex-wrap", none)] := by
  exact ⟨rfl, rfl, rfl, rfl, rfl, by decide⟩

/-- C5 counterexample: the claim says the `flex-wrap` key is absent from
the returned property set whenever wrap is unset, but for an unset
(falsy) wrap the key is present and bound to `null` (here `none`). -/
theorem c5_flexwrap_omitted_counterexample :
    truthy none = false ∧
    "flex-wrap" ∈ (_buildCSS "row" none).map Prod.fst ∧
    (_buildCSS "row" none).lookup "flex-wrap" = some none := by decide

/-- C5 (amended): the style builder always includes the `flex-wrap` key;
when wrap is unset (falsy) its value is `null` — the "remove if present"
signal for the style applier — and otherwise its value is the wrap
token. -/
theorem c5_flexwrap_always_present (direction : String) (wrap : Option String) :
    "flex-wrap" ∈ (_buildCSS direction wrap).map Prod.fst ∧
    (_buildCSS direction wrap).lookup "flex-wrap" =
      some (if truthy wrap then wrap else none) := by
  refine ⟨?_, rfl⟩
  show "flex-wrap" ∈ ["display", "box-sizing", "flex-direction", "flex-wrap"]
  decide

/-- C6: with no media-query activation and the cached base input
`"column reverse"`, one update applies exactly the style
`display:flex, box-sizing:border-box, flex-direction:column,
flex-wrap:wrap-reverse` to the host and announces `"column"`. -/
theorem c6_column_reverse_scenario :
    (_updateWithDirection
      (LayoutState.mk (some "column reverse") none
        (BehaviorSubject.init "row") none) none).appliedStyle =
      some [("display", some "flex"), ("box-sizing", some "border-box"),
            ("flex-direction", some "column"),
            ("flex-wrap", some "wrap-reverse")] ∧
    (_updateWithDirection
      (LayoutState.mk (some "column reverse") none
        (BehaviorSubject.init "row") none) none).announcer.current = "column" ∧
    (_updateWithDirection
      (LayoutState.mk (some "column reverse") none
        (BehaviorSubject.init "row") none) none).announcer.emitted = ["column"] := by
  decide

/-- C7: every invocation of `_updateWithDirection` pushes exactly one
value into the announcement channel (the emission log grows by one
element), that value is one of the four enumerated directions, and a
subscriber arriving right after the update immediately receives it. -/
theorem c7_announce_per_update (s : LayoutState) (value : Option String) :
    ∃ d ∈ LAYOUT_VALUES,
      (_updateWithDirection s value).announcer.emitted =
        s.announcer.emitted ++ [d] ∧
      (_updateWithDirection s value).announcer.subscribeNow = d := by
  exact ⟨(_validateValue (resolveRawValue value s.layoutInput s.mqActivation)).1,
    validateValue_fst_mem _, rfl, rfl⟩

/-- C8 counterexample: the claim says the normalizer splits the lowercased
input on whitespace, but the source splits on the space character only: on
the tab-separated input `"column\tnowrap"` the code yields
`("row", unset)` (the whole string is one unrecognized token), while a
whitespace-splitting normalizer (spec-modelled `_validateValueSpecSplit`)
yields `("column", some "nowrap")`. -/
theorem c8_whitespace_split_counterexample :
    _validateValue (some "column\tnowrap") = ("row", none) ∧
    _validateValueSpecSplit (some "column\tnowrap") = ("column", some "nowrap") ∧
    _validateValue (some "column\tnowrap") ≠
      _validateValueSpecSplit (some "column\tnowrap") := by decide

/-- C8 (amended): for every raw input (possibly empty or absent) the
normalizer lower-cases it and splits it on the space character (not on
general whitespace); only the first two resulting fields are used, as the
direction and the wrap token. -/
theorem c8_lowercase_space_split (value : Option String) :
    normalizeRaw value = jsToLower (value.getD "") ∧
    (_validateValue value).1 =
      (if (jsSplit (jsToLower (value.getD "")) ' ').headD "" ∈ LAYOUT_VALUES
       then (jsSplit (jsToLower (value.getD "")) ' ').headD "" else "row") ∧
    (_validateValue value).2 =
      _validateWrapValue (jsSplit (jsToLower (value.getD "")) ' ')[1]? := by
  have hN : normalizeRaw value = jsToLower (value.getD "") := by
    cases value with
    | none => rfl
    | some s =>
      by_cases h : s = ""
      · subst h; rfl
      · simp only [normalizeRaw, truthy_some_of_ne s h, if_true, Option.getD_some]
  refine ⟨hN, ?_, ?_⟩
  · show (if (jsSplit (normalizeRaw value) ' ').headD "" ∈ LAYOUT_VALUES
       then (jsSplit (normalizeRaw value) ' ').headD ""
       else LAYOUT_VALUES.headD "") = _
    rw [hN]
    rfl
  · show _validateWrapValue (jsSplit (normalizeRaw value) ' ')[1]? = _
    rw [hN]

/-- C9: the normalizer is idempotent on its own output — re-validating the
string rebuilt from any `_validateValue` result returns the same pair —
and `_validateWrapValue` is idempotent on all of its results. -/
theorem c9_normalizer_idempotent (value : Option String) :
    _validateValue
        (some (rebuildRaw (_validateValue value).1 (_validateValue value).2)) =
      _validateValue value ∧
    _validateWrapValue (_validateWrapValue value) = _validateWrapValue value := by
  constructor
  · have hd := validateValue_fst_mem value
    have hw := validateValue_snd_shape value
    cases hp : _validateValue value with
    | mk d w =>
      rw [hp] at hd hw
      simp only [LAYOUT_VALUES, List.mem_cons, List.not_mem_nil, or_false] at hd
      rcases hd with hd | hd | hd | hd <;>
        rcases hw with hw | hw | hw | hw | hw <;>
          simp only at hd hw <;> subst hd <;> subst hw <;> decide
  · cases value with
    | none => rfl
    | some x =>
      by_cases hx : x = ""
      · subst hx; rfl
      · rcases validateWrapValue_of_ne x hx with h | h | h <;> rw [h] <;> decide

/-- C10: immediately after construction — before any change-detection or
media-query event — the announcement channel already holds `"row"` (and
nothing has been emitted yet), so a subscriber to `layout$` at that point
receives `"row"`. -/
theorem c10_initial_row :
    constructLayout.announcer = BehaviorSubject.init "row" ∧
    constructLayout.announcer.subscribeNow = "row" ∧
    constructLayout.announcer.current = "row" ∧
    constructLayout.announcer.emitted = [] := by
  exact ⟨rfl, rfl, rfl, rfl⟩
